import Mathlib

/-!
Shallow embedding of the compliance/protocol verification core of the
`ai-clinical-guardrails` repository (files `src/models.py`, `src/engine.py`,
`src/extraction/models.py`, `src/protocols/{models,matcher,registry}.py`,
`src/protocols/checkers/{base,allergy_checker,drug_checker,documentation_checker}.py`),
together with theorems settling the frozen claims C1..C10.

Modelling conventions:
* Python `date` / `datetime` become explicit `Date` / `DateTime` structures;
  `datetime.date()` is the `date` projection.
* Python `float` scores become `ℚ`; the engine only ever assigns the literals
  `1.0`, `0.9`, `0.7`, so this is exact.
* Python dicts keyed by strings become association lists with first-match
  lookup; dict `.get(k, default)` becomes `Option.getD` after lookup.
* The untyped rule `pattern: dict[str, Any]` becomes `RulePattern` with one
  `Option` field per key the checkers read (`patient_allergies`, `required`,
  `trigger`, `conflicts`, `medications`); a missing key is `none`, and every
  `.get(key, default)` in the source becomes `Option.getD`.
* `re` character classes `\d` and `\w` are modelled over ASCII
  (`Char.isDigit`, alphanumeric-or-underscore), and `str.lower` / `str.upper`
  character-wise by `strLower` / `strUpper` over ASCII `Char.toLower` /
  `Char.toUpper`.
-/

/-- Python `datetime.date`: a calendar date (year, month, day). -/
structure Date where
  year : Nat
  month : Nat
  day : Nat
deriving DecidableEq, Repr

/-- Python `datetime.datetime`: a date plus a time-of-day component.
`EMRContext` stores datetimes and the engine projects out `.date()`. -/
structure DateTime where
  date : Date
  hour : Nat := 0
  minute : Nat := 0
  second : Nat := 0
deriving DecidableEq, Repr

/-- Embeds `ComplianceSeverity` from `src/models.py` (`LOW < MEDIUM < HIGH < CRITICAL`). -/
inductive ComplianceSeverity where
  | low
  | medium
  | high
  | critical
deriving DecidableEq, Repr

/-- Embeds `ComplianceAlert` from `src/models.py`. -/
structure ComplianceAlert where
  rule_id : String
  message : String
  severity : ComplianceSeverity
  field : Option String := none
deriving DecidableEq, Repr

/-- Embeds `Result` from `src/models.py`: the nullable dual-field pattern
(`value`/`error` both optional plus an `is_success` discriminant). -/
structure Result (T E : Type) where
  value : Option T := none
  error : Option E := none
  is_success : Bool
deriving DecidableEq, Repr

/-- Embeds `Result.success` classmethod. -/
def Result.success {T E : Type} (value : T) : Result T E :=
  { value := some value, is_success := true }

/-- Embeds `Result.failure` classmethod. -/
def Result.failure {T E : Type} (error : E) : Result T E :=
  { error := some error, is_success := false }

/-- The `Result` invariant demanded by the spec: success and failure arms are
mutually exclusive and exhaustive, and a failure over a list payload carries
at least one element. -/
def Result.wellFormed {T E : Type} (r : Result T (List E)) : Prop :=
  (r.is_success = true ∧ r.value.isSome ∧ r.error = none) ∨
    (r.is_success = false ∧ r.value = none ∧ ∃ e, r.error = some e ∧ e ≠ [])

/-- Embeds `PatientProfile` from `src/models.py`. It declares no
`active_medications` field. -/
structure PatientProfile where
  patient_id : String
  first_name : String
  last_name : String
  dob : Date
  allergies : List String := []
  diagnoses : List String := []
deriving DecidableEq, Repr

/-- Embeds `EMRContext` from `src/models.py`. -/
structure EMRContext where
  visit_id : String
  patient_id : String
  admission_date : DateTime
  discharge_date : Option DateTime := none
  attending_physician : String
  raw_notes : String
deriving DecidableEq, Repr

/-- Embeds `AIGeneratedOutput` from `src/models.py`. It declares no
`extracted_medications` field (pydantic ignores undeclared attributes, so
`hasattr(ai_output, "extracted_medications")` is `False` for this type). -/
structure AIGeneratedOutput where
  summary_text : String
  extracted_dates : List Date := []
  extracted_diagnoses : List String := []
  suggested_billing_codes : List String := []
  contains_pii : Bool := false
deriving DecidableEq, Repr

/-- Embeds `VerificationResult` from `src/models.py` (score is a float in `[0,1]`,
modelled exactly as `ℚ`). -/
structure VerificationResult where
  is_safe_to_file : Bool
  score : ℚ
  alerts : List ComplianceAlert := []
deriving DecidableEq, Repr

/-! ## Extraction models (`src/extraction/models.py`) -/

/-- Embeds `ExtractedMedication` (the checkers only read `.name`; the remaining
dataclass fields are carried for shape fidelity). -/
structure ExtractedMedication where
  name : String
  dosage : Option String := none
  frequency : Option String := none
  route : Option String := none
  confidence : ℚ := 1
deriving DecidableEq, Repr

/-- Embeds `ExtractedTemporalExpression` (only list-emptiness is consumed by the
core; `text` stands for the dataclass payload). -/
structure ExtractedTemporalExpression where
  text : String
  confidence : ℚ := 1
deriving DecidableEq, Repr

/-- Embeds `ExtractedDiagnosis`. -/
structure ExtractedDiagnosis where
  text : String
  icd10_code : Option String := none
  confidence : ℚ := 1
deriving DecidableEq, Repr

/-- Embeds `StructuredExtraction` from `src/extraction/models.py`
(`vital_signs: list[dict]` modelled as a list of key/value association
lists; only its emptiness is consumed by the core). -/
structure StructuredExtraction where
  patient_name : Option String := none
  patient_age : Option String := none
  visit_type : Option String := none
  temporal_expressions : List ExtractedTemporalExpression := []
  medications : List ExtractedMedication := []
  diagnoses : List ExtractedDiagnosis := []
  vital_signs : List (List (String × String)) := []
  confidence : ℚ := 1
deriving DecidableEq, Repr

/-! ## Protocol models (`src/protocols/models.py`) -/

/-- Embeds `ProtocolSeverity`. -/
inductive ProtocolSeverity where
  | CRITICAL
  | HIGH
  | WARNING
  | INFO
deriving DecidableEq, Repr

/-- A nested `{"medications": [...]}` map, as found under the `trigger` and
`conflicts` keys of a rule pattern; `none` models a missing `medications`
key. -/
structure MedGroup where
  medications : Option (List String) := none
deriving DecidableEq, Repr

/-- The untyped `pattern: dict[str, Any]` of a rule, restricted to the keys
the checkers read; `none` models a missing key. -/
structure RulePattern where
  medications : Option (List String) := none
  patient_allergies : Option (List String) := none
  required : Option (List String) := none
  trigger : Option MedGroup := none
  conflicts : Option MedGroup := none
deriving DecidableEq, Repr

/-- Embeds `rule.pattern.get("trigger", {}).get("medications", [])` and its
`conflicts` twin. -/
def MedGroup.getMeds (g : Option MedGroup) : List String :=
  (g.getD {}).medications.getD []

/-- Embeds `ProtocolRule`. -/
structure ProtocolRule where
  name : String
  checker_type : String
  pattern : RulePattern
  severity : ProtocolSeverity
  message : String
deriving DecidableEq, Repr

/-- One entry of `ProtocolConfig.checkers`: `{enabled: bool, ...}`; `none`
models a missing `enabled` key (`.get("enabled", False)`). -/
structure CheckerSettings where
  enabled : Option Bool := none
deriving DecidableEq, Repr

/-- Embeds `ProtocolConfig` (dicts as association lists). -/
structure ProtocolConfig where
  version : String
  settings : List (String × String) := []
  checkers : List (String × CheckerSettings) := []
  rules : List (String × List ProtocolRule) := []
deriving DecidableEq, Repr

/-! ## Pattern matchers (`src/protocols/matcher.py`) -/

/-- Python `str.lower` (ASCII), character by character. -/
def strLower (s : String) : String :=
  String.mk (s.data.map Char.toLower)

/-- Python `str.upper` (ASCII), character by character. -/
def strUpper (s : String) : String :=
  String.mk (s.data.map Char.toUpper)

/-- Lower-cased set intersection test `bool({x.lower()} & {y.lower()})` on
two string collections. -/
def lowerIntersects (xs ys : List String) : Bool :=
  (xs.map strLower).any fun x => (ys.map strLower).contains x

/-- Embeds `MedicationPatternMatcher.matches`: the `pattern.get("medications", [])`
list intersects the lower-cased extracted medication names. -/
def MedicationPatternMatcher.matches (extraction : StructuredExtraction)
    (medications : List String) : Bool :=
  lowerIntersects medications (extraction.medications.map (·.name))

/-- Embeds `AllergyPatternMatcher.matches`: the patient's lower-cased allergies
intersect the `pattern.get("patient_allergies", [])` list. -/
def AllergyPatternMatcher.matches (patient : PatientProfile)
    (patient_allergies : List String) : Bool :=
  lowerIntersects patient.allergies patient_allergies

/-- Embeds `getattr(extraction, field, None)` presence test of
`FieldPresenceMatcher`: `None`, an empty list, or an unknown attribute name
counts as absent. -/
def fieldPresent (e : StructuredExtraction) (f : String) : Bool :=
  if f = "patient_name" then e.patient_name.isSome
  else if f = "patient_age" then e.patient_age.isSome
  else if f = "visit_type" then e.visit_type.isSome
  else if f = "temporal_expressions" then !e.temporal_expressions.isEmpty
  else if f = "medications" then !e.medications.isEmpty
  else if f = "diagnoses" then !e.diagnoses.isEmpty
  else if f = "vital_signs" then !e.vital_signs.isEmpty
  else if f = "confidence" then true
  else false

/-- Embeds `FieldPresenceMatcher.matches`: every field of
`pattern.get("required", [])` is present and non-empty. -/
def FieldPresenceMatcher.matches (e : StructuredExtraction)
    (required : List String) : Bool :=
  required.all (fieldPresent e)

/-! ## Checkers (`src/protocols/checkers/*.py`) -/

/-- Python `s.replace(" ", "_")`: the pattern is a single character, so
this is a character-wise substitution. -/
def spacesToUnderscores (s : String) : String :=
  String.mk (s.data.map fun c => if c = ' ' then '_' else c)

/-- The severity map of `ProtocolChecker._create_alert`
(`CRITICAL→CRITICAL, HIGH→HIGH, WARNING→MEDIUM, INFO→LOW`; the dict's
`.get` default `LOW` is unreachable on the closed enum). -/
def mapSeverity : ProtocolSeverity → ComplianceSeverity
  | .CRITICAL => .critical
  | .HIGH => .high
  | .WARNING => .medium
  | .INFO => .low

/-- Embeds `ProtocolChecker._create_alert`: rule id
`PROTOCOL_{checker_type.upper()}_{name.upper().replace(' ', '_')}`,
mapped severity, message copied verbatim, field fixed to `"extraction"`. -/
def ProtocolChecker.create_alert (rule : ProtocolRule) : ComplianceAlert :=
  { rule_id := "PROTOCOL_" ++ strUpper rule.checker_type ++ "_" ++
      spacesToUnderscores (strUpper rule.name)
    message := rule.message
    severity := mapSeverity rule.severity
    field := some "extraction" }

/-- Embeds `config.rules[key]` lookup used by every checker's
`key not in self.config.rules` guard. -/
def rulesFor (config : ProtocolConfig) (key : String) : Option (List ProtocolRule) :=
  List.lookup key config.rules

/-- Embeds `AllergyChecker.check`: with no config or no `"allergy_checks"` rule
group it returns `[]`; otherwise one alert per rule whose
`patient_allergies` pattern matches the patient's allergies AND whose
`conflicts.medications` pattern matches the extracted medications. -/
def AllergyChecker.check (config : Option ProtocolConfig)
    (patient : PatientProfile) (extraction : StructuredExtraction) :
    List ComplianceAlert :=
  match config with
  | none => []
  | some c =>
    match rulesFor c "allergy_checks" with
    | none => []
    | some rules =>
      rules.filterMap fun rule =>
        if AllergyPatternMatcher.matches patient
              (rule.pattern.patient_allergies.getD []) &&
            MedicationPatternMatcher.matches extraction
              (MedGroup.getMeds rule.pattern.conflicts) then
          some (ProtocolChecker.create_alert rule)
        else none

/-- Embeds `DrugInteractionChecker.check`. `PatientProfile` declares no
`active_medications` attribute, so the `hasattr(patient,
"active_medications")` guard in the source is statically `False` and the
combined medication set is exactly the extraction's medication names. -/
def DrugInteractionChecker.check (config : Option ProtocolConfig)
    (_patient : PatientProfile) (extraction : StructuredExtraction) :
    List ComplianceAlert :=
  match config with
  | none => []
  | some c =>
    match rulesFor c "drug_interactions" with
    | none => []
    | some rules =>
      rules.filterMap fun rule =>
        if lowerIntersects (MedGroup.getMeds rule.pattern.trigger)
              (extraction.medications.map (·.name)) &&
            lowerIntersects (MedGroup.getMeds rule.pattern.conflicts)
              (extraction.medications.map (·.name)) then
          some (ProtocolChecker.create_alert rule)
        else none

/-- Embeds `RequiredFieldsChecker.check`: one alert per rule whose
`required` field list is NOT all present. -/
def RequiredFieldsChecker.check (config : Option ProtocolConfig)
    (_patient : PatientProfile) (extraction : StructuredExtraction) :
    List ComplianceAlert :=
  match config with
  | none => []
  | some c =>
    match rulesFor c "required_fields" with
    | none => []
    | some rules =>
      rules.filterMap fun rule =>
        if !FieldPresenceMatcher.matches extraction
            (rule.pattern.required.getD []) then
          some (ProtocolChecker.create_alert rule)
        else none

/-! ## Registry (`src/protocols/registry.py`) -/

namespace ProtocolRegistry

/-- The fixed `checker_map` keys, in Python dict literal (iteration) order. -/
def checkerNames : List String :=
  ["drug_interactions", "allergy_checks", "required_fields"]

/-- Embeds `self.config.checkers.get(checker_name, {}).get("enabled", False)`. -/
def checkerEnabled (config : ProtocolConfig) (name : String) : Bool :=
  ((List.lookup name config.checkers).getD {}).enabled.getD false

/-- Embeds `get_enabled_checkers`: the keys of `self._checkers`, i.e. the
`checker_map` names whose config entry is enabled, in map order. -/
def get_enabled_checkers (config : ProtocolConfig) : List String :=
  checkerNames.filter (checkerEnabled config)

/-- Dispatch a checker name to its `check` implementation
(the `checker_map` name→class dict). -/
def runChecker (config : ProtocolConfig) (name : String)
    (patient : PatientProfile) (extraction : StructuredExtraction) :
    List ComplianceAlert :=
  if name = "drug_interactions" then
    DrugInteractionChecker.check (some config) patient extraction
  else if name = "allergy_checks" then
    AllergyChecker.check (some config) patient extraction
  else if name = "required_fields" then
    RequiredFieldsChecker.check (some config) patient extraction
  else []

/-- Embeds `check_all`: run every instantiated (enabled) checker and
concatenate their alert lists (the source's loop extending `all_alerts`). -/
def check_all (config : ProtocolConfig) (patient : PatientProfile)
    (extraction : StructuredExtraction) : List ComplianceAlert :=
  ((get_enabled_checkers config).map
    (fun name => runChecker config name patient extraction)).flatten

end ProtocolRegistry

/-! ## Compliance engine (`src/engine.py`) -/

namespace ComplianceEngine

/-- ASCII `\w` (word character) for the regex word boundary `\b`. -/
def isWordChar (c : Char) : Bool :=
  c.isAlpha || c.isDigit || c = '_'

/-- Consume exactly `n` digits (`\d{n}`), returning the rest of the input. -/
def takeDigits : Nat → List Char → Option (List Char)
  | 0, rest => some rest
  | _ + 1, [] => none
  | n + 1, c :: rest => if c.isDigit then takeDigits n rest else none

/-- Consume `[ ]?` according to the alternation choice `b`. -/
def takeOptSpace (b : Bool) (l : List Char) : Option (List Char) :=
  if b then
    match l with
    | ' ' :: rest => some rest
    | _ => none
  else some l

/-- Match the regex body `\d{4}[ ]?\d{5}[ ]?\d{1}` at the head of the input,
with the two `[ ]?` groups resolved by `b1`, `b2`. -/
def matchBody (b1 b2 : Bool) (l : List Char) : Option (List Char) :=
  (takeDigits 4 l).bind fun l1 =>
    (takeOptSpace b1 l1).bind fun l2 =>
      (takeDigits 5 l2).bind fun l3 =>
        (takeOptSpace b2 l3).bind fun l4 =>
          takeDigits 1 l4

/-- The left word boundary `\b` before a digit: start of string or a
non-word previous character. -/
def boundaryBefore : Option Char → Bool
  | none => true
  | some c => !isWordChar c

/-- The right word boundary `\b` after a digit: end of string or a
non-word next character. -/
def boundaryAfter : List Char → Bool
  | [] => true
  | c :: _ => !isWordChar c

/-- A match of `\b\d{4}[ ]?\d{5}[ ]?\d{1}\b` starting exactly here
(`prev` is the character before the current position, if any). -/
def matchHere (prev : Option Char) (l : List Char) : Bool :=
  boundaryBefore prev &&
    ([(true, true), (true, false), (false, true), (false, false)].any
      fun p =>
        match matchBody p.1 p.2 l with
        | some rest => boundaryAfter rest
        | none => false)

/-- Scan for a match anywhere in the input (`re.search`). -/
def searchFrom : Option Char → List Char → Bool
  | prev, [] => matchHere prev []
  | prev, c :: rest => matchHere prev (c :: rest) || searchFrom (some c) rest

/-- Embeds `re.search(r"\b\d{4}[ ]?\d{5}[ ]?\d{1}\b", text)` is not `None`. -/
def piiSearch (text : String) : Bool :=
  searchFrom none text.data

/-- Zero-pad a decimal rendering of `n` to `width` characters. -/
def padNat (width n : Nat) : String :=
  let s := toString n
  String.mk (List.replicate (width - s.length) '0') ++ s

/-- Python `str(date)`: ISO `YYYY-MM-DD`. -/
def dateStr (d : Date) : String :=
  padNat 4 d.year ++ "-" ++ padNat 2 d.month ++ "-" ++ padNat 2 d.day

/-- The alert appended by `_verify_date_integrity` for an offending date. -/
def mkDateAlert (d : Date) : ComplianceAlert :=
  { rule_id := "INVARIANT_DATE_MISMATCH"
    message := "Extracted date " ++ dateStr d ++
      " is outside the allowed EMR context window."
    severity := .critical
    field := some "extracted_dates" }

/-- The alert appended by `_verify_clinical_protocols`. -/
def mkSepsisAlert : ComplianceAlert :=
  { rule_id := "PROTOCOL_ADHERENCE_MISSING"
    message := "Clinical Protocol: Sepsis diagnosis requires explicit antibiotic documentation."
    severity := .high
    field := some "summary_text" }

/-- The alert appended by `_verify_data_safety`. -/
def mkPiiAlert : ComplianceAlert :=
  { rule_id := "SAFETY_PII_LEAK"
    message := "Administrative Safety: Potential PII (Medicare Number pattern) detected in summary."
    severity := .critical
    field := some "summary_text" }

/-- The allowed date set of `_verify_date_integrity`:
`{context.admission_date.date()}` plus the discharge date if present. -/
def allowedDates (context : EMRContext) : List Date :=
  context.admission_date.date ::
    (match context.discharge_date with
     | some d => [d.date]
     | none => [])

/-- Embeds `_verify_date_integrity`: one CRITICAL alert per extracted date outside
the allowed set. -/
def verify_date_integrity (context : EMRContext) (ai_output : AIGeneratedOutput) :
    List ComplianceAlert :=
  (ai_output.extracted_dates.filter
    (fun d => !(allowedDates context).contains d)).map mkDateAlert

/-- Python `needle in haystack` on strings: contiguous-substring test. -/
def strContains (haystack needle : String) : Bool :=
  decide (needle.data <:+: haystack.data)

/-- The sepsis-without-antibiotic condition of `_verify_clinical_protocols`. -/
def sepsisCond (ai_output : AIGeneratedOutput) : Bool :=
  (ai_output.extracted_diagnoses.map strLower).any
      (fun d => strContains d "sepsis") &&
    !(strContains (strLower ai_output.summary_text) "antibiotic")

/-- Embeds `_verify_clinical_protocols`. -/
def verify_clinical_protocols (ai_output : AIGeneratedOutput) :
    List ComplianceAlert :=
  if sepsisCond ai_output then [mkSepsisAlert] else []

/-- Embeds `_verify_data_safety`. -/
def verify_data_safety (ai_output : AIGeneratedOutput) : List ComplianceAlert :=
  if piiSearch ai_output.summary_text then [mkPiiAlert] else []

/-- Embeds `_convert_to_extraction` on the `AIGeneratedOutput` of
`src/models.py`: that type declares no `extracted_medications` attribute,
so the source's `hasattr` guard takes its `else []` branch and every other
field is constructed empty. -/
def convert_to_extraction (_ai_output : AIGeneratedOutput) : StructuredExtraction :=
  { medications := []
    diagnoses := []
    temporal_expressions := []
    vital_signs := [] }

/-- The full alert list collected by `verify` before classification, in
source order: date integrity, clinical protocols, data safety, then the
optional medical protocol checks. -/
def collectAlerts (patient : PatientProfile) (context : EMRContext)
    (ai_output : AIGeneratedOutput) (protocol_config : Option ProtocolConfig) :
    List ComplianceAlert :=
  verify_date_integrity context ai_output ++
    verify_clinical_protocols ai_output ++
      verify_data_safety ai_output ++
        (match protocol_config with
         | some config =>
           ProtocolRegistry.check_all config patient
             (convert_to_extraction ai_output)
         | none => [])

/-- Embeds `ComplianceEngine.verify`: classify the collected alerts, fail on any
CRITICAL alert with the critical list as payload, otherwise score and
return success. -/
def verify (patient : PatientProfile) (context : EMRContext)
    (ai_output : AIGeneratedOutput) (protocol_config : Option ProtocolConfig) :
    Result VerificationResult (List ComplianceAlert) :=
  let alerts := collectAlerts patient context ai_output protocol_config
  let critical_alerts := alerts.filter
    (fun a => a.severity = ComplianceSeverity.critical)
  if critical_alerts.isEmpty then
    let high_alerts := alerts.filter
      (fun a => a.severity = ComplianceSeverity.high)
    let score : ℚ :=
      if !high_alerts.isEmpty then 0.7
      else if !alerts.isEmpty then 0.9
      else 1.0
    Result.success { is_safe_to_file := true, score := score, alerts := alerts }
  else
    Result.failure critical_alerts

end ComplianceEngine

/-- A duck-typed AI output as seen by `_convert_to_extraction`'s
`hasattr(ai_output, "extracted_medications")` guard: the declared
`AIGeneratedOutput` fields plus a possibly-present (`some`) or absent
(`none`) `extracted_medications` attribute. -/
structure DynAIGeneratedOutput extends AIGeneratedOutput where
  extracted_medications : Option (List ExtractedMedication) := none
deriving DecidableEq, Repr

/-- Embeds `_convert_to_extraction` over the duck-typed output: medications are
carried over exactly when the attribute is present, everything else is
constructed empty. -/
def ComplianceEngine.convert_to_extraction_dyn (ai_output : DynAIGeneratedOutput) :
    StructuredExtraction :=
  { medications :=
      match ai_output.extracted_medications with
      | some meds => meds
      | none => []
    diagnoses := []
    temporal_expressions := []
    vital_signs := [] }

/-! ## Concrete sample inputs (used to instantiate the theorems) -/

/-- A minimal patient with no allergies. -/
def samplePatient : PatientProfile :=
  { patient_id := "p1", first_name := "Ana", last_name := "Lee", dob := ⟨1980, 1, 1⟩ }

/-- A context admitting on 2024-01-01 and discharging on 2024-01-05. -/
def sampleContext : EMRContext :=
  { visit_id := "v1", patient_id := "p1"
    admission_date := { date := ⟨2024, 1, 1⟩, hour := 10 }
    discharge_date := some { date := ⟨2024, 1, 5⟩ }
    attending_physician := "Dr. Chen", raw_notes := "admitted overnight" }

/-- An AI output claiming a date far outside the encounter window. -/
def aiBadDate : AIGeneratedOutput :=
  { summary_text := "Summary looks fine.", extracted_dates := [⟨2020, 5, 5⟩] }

/-- An AI output with an in-window date and no findings. -/
def aiClean : AIGeneratedOutput :=
  { summary_text := "Routine visit.", extracted_dates := [⟨2024, 1, 1⟩] }

/-- A sepsis diagnosis with no antibiotic mention and in-window dates. -/
def aiSepsisNoAbx : AIGeneratedOutput :=
  { summary_text := "Patient has sepsis.", extracted_dates := [⟨2024, 1, 1⟩]
    extracted_diagnoses := ["Severe Sepsis"] }

/-- A summary leaking a Medicare-style number. -/
def aiMedicare : AIGeneratedOutput :=
  { summary_text := "Patient Medicare is 1234 56789 1."
    extracted_dates := [⟨2024, 1, 1⟩] }

/-- The allergy-conflict rule of the end-to-end spec scenario. -/
def penicillinRule : ProtocolRule :=
  { name := "penicillin conflict", checker_type := "allergy_checks"
    pattern := { patient_allergies := some ["penicillin"]
                 conflicts := some { medications := some ["amoxicillin"] } }
    severity := .CRITICAL
    message := "Patient allergic to penicillin; amoxicillin prescribed." }

/-- A config enabling only the allergy checker, with the one rule above. -/
def sampleProtocolConfig : ProtocolConfig :=
  { version := "1.0"
    checkers := [("allergy_checks", { enabled := some true })]
    rules := [("allergy_checks", [penicillinRule])] }

/-- A patient allergic to penicillin (lower case). -/
def allergicPatient : PatientProfile :=
  { patient_id := "p2", first_name := "Bo", last_name := "Kim", dob := ⟨1975, 6, 2⟩
    allergies := ["penicillin"] }

/-- The same patient with the allergy written in upper case. -/
def allergicPatientUpper : PatientProfile :=
  { patient_id := "p2", first_name := "Bo", last_name := "Kim", dob := ⟨1975, 6, 2⟩
    allergies := ["PENICILLIN"] }

/-- An extraction carrying one amoxicillin medication record. -/
def amoxExtraction : StructuredExtraction :=
  { medications := [{ name := "amoxicillin" }] }

/-- The allergy rule with its pattern entries written in upper case. -/
def penicillinRuleUpper : ProtocolRule :=
  { name := "penicillin conflict", checker_type := "allergy_checks"
    pattern := { patient_allergies := some ["PENICILLIN"]
                 conflicts := some { medications := some ["AMOXICILLIN"] } }
    severity := .CRITICAL
    message := "Patient allergic to penicillin; amoxicillin prescribed." }

/-- A config with a rule group for a checker that is never enabled. -/
def cfgRulesWithoutChecker : ProtocolConfig :=
  { version := "1.0"
    checkers := []
    rules := [("drug_interactions", [penicillinRule])] }

/-- A duck-typed AI output carrying an `extracted_medications` attribute. -/
def dynWithMeds : DynAIGeneratedOutput :=
  { summary_text := "Routine visit."
    extracted_medications := some [{ name := "amoxicillin" }] }

/-! ## Helper lemmas -/

/-- No string with the `PROTOCOL_` prefix is the date-invariant rule id. -/
lemma protocol_prefix_ne_invariant (s : String) :
    "PROTOCOL_" ++ s ≠ "INVARIANT_DATE_MISMATCH" := by
  intro h
  have h2 : ("PROTOCOL_" ++ s).data = "INVARIANT_DATE_MISMATCH".data :=
    congrArg String.data h
  rw [String.data_append] at h2
  have h3 : 'P' :: ("ROTOCOL_".data ++ s.data) = 'I' :: "NVARIANT_DATE_MISMATCH".data := h2
  simp at h3

/-- No string with the `PROTOCOL_` prefix is the PII rule id. -/
lemma protocol_prefix_ne_pii (s : String) :
    "PROTOCOL_" ++ s ≠ "SAFETY_PII_LEAK" := by
  intro h
  have h2 : ("PROTOCOL_" ++ s).data = "SAFETY_PII_LEAK".data :=
    congrArg String.data h
  rw [String.data_append] at h2
  have h3 : 'P' :: ("ROTOCOL_".data ++ s.data) = 'S' :: "AFETY_PII_LEAK".data := h2
  simp at h3

/-- Every configurable-checker alert's rule id has the `PROTOCOL_` prefix. -/
lemma create_alert_rule_id_prefix (rule : ProtocolRule) :
    ∃ s, (ProtocolChecker.create_alert rule).rule_id = "PROTOCOL_" ++ s := by
  refine ⟨strUpper rule.checker_type ++ "_" ++ spacesToUnderscores (strUpper rule.name), ?_⟩
  simp [ProtocolChecker.create_alert, String.append_assoc]

/-- Every configurable-checker alert carries `field = "extraction"`. -/
lemma create_alert_field (rule : ProtocolRule) :
    (ProtocolChecker.create_alert rule).field = some "extraction" := rfl

/-- Membership in a `filterMap` over a guarded `some`. -/
lemma mem_filterMap_guard {α β : Type} {p : α → Bool} {f : α → β} {l : List α} {b : β} :
    b ∈ l.filterMap (fun r => if p r then some (f r) else none) ↔
      ∃ r ∈ l, p r = true ∧ f r = b := by
  simp only [List.mem_filterMap]
  constructor
  · rintro ⟨r, hr, h⟩
    split at h
    · exact ⟨r, hr, by assumption, by injection h⟩
    · exact absurd h (by simp)
  · rintro ⟨r, hr, hp, hf⟩
    exact ⟨r, hr, by simp [hp, hf]⟩

/-- A `filterMap` over a guarded `some` is a `filter` followed by a `map`. -/
lemma filterMap_guard_eq {α β : Type} (p : α → Bool) (f : α → β) (l : List α) :
    l.filterMap (fun r => if p r then some (f r) else none) = (l.filter p).map f := by
  induction l with
  | nil => rfl
  | cons a t ih =>
    by_cases h : p a = true <;>
      simp [List.filterMap_cons, List.filter_cons, h, ih]

/-- Every alert the allergy checker emits is a `create_alert` of some rule. -/
lemma allergy_check_shape {cfgO : Option ProtocolConfig} {p : PatientProfile}
    {e : StructuredExtraction} {a : ComplianceAlert}
    (h : a ∈ AllergyChecker.check cfgO p e) :
    ∃ rule, a = ProtocolChecker.create_alert rule := by
  match cfgO with
  | none => simp [AllergyChecker.check] at h
  | some cfg =>
    simp only [AllergyChecker.check] at h
    split at h
    · simp at h
    · rw [mem_filterMap_guard] at h
      obtain ⟨r, _, _, hf⟩ := h
      exact ⟨r, hf.symm⟩

/-- Every alert the drug-interaction checker emits is a `create_alert` of
some rule. -/
lemma drug_check_shape {cfgO : Option ProtocolConfig} {p : PatientProfile}
    {e : StructuredExtraction} {a : ComplianceAlert}
    (h : a ∈ DrugInteractionChecker.check cfgO p e) :
    ∃ rule, a = ProtocolChecker.create_alert rule := by
  match cfgO with
  | none => simp [DrugInteractionChecker.check] at h
  | some cfg =>
    simp only [DrugInteractionChecker.check] at h
    split at h
    · simp at h
    · rw [mem_filterMap_guard] at h
      obtain ⟨r, _, _, hf⟩ := h
      exact ⟨r, hf.symm⟩

/-- Every alert the required-fields checker emits is a `create_alert` of
some rule. -/
lemma required_check_shape {cfgO : Option ProtocolConfig} {p : PatientProfile}
    {e : StructuredExtraction} {a : ComplianceAlert}
    (h : a ∈ RequiredFieldsChecker.check cfgO p e) :
    ∃ rule, a = ProtocolChecker.create_alert rule := by
  match cfgO with
  | none => simp [RequiredFieldsChecker.check] at h
  | some cfg =>
    simp only [RequiredFieldsChecker.check] at h
    split at h
    · simp at h
    · rw [mem_filterMap_guard] at h
      obtain ⟨r, _, _, hf⟩ := h
      exact ⟨r, hf.symm⟩

/-- Every registry alert is a `create_alert` of some rule. -/
lemma check_all_shape {cfg : ProtocolConfig} {p : PatientProfile}
    {e : StructuredExtraction} {a : ComplianceAlert}
    (h : a ∈ ProtocolRegistry.check_all cfg p e) :
    ∃ rule, a = ProtocolChecker.create_alert rule := by
  unfold ProtocolRegistry.check_all at h
  rw [List.mem_flatten] at h
  obtain ⟨l, hl, hal⟩ := h
  rw [List.mem_map] at hl
  obtain ⟨n, _, rfl⟩ := hl
  unfold ProtocolRegistry.runChecker at hal
  split at hal
  · exact drug_check_shape hal
  · split at hal
    · exact allergy_check_shape hal
    · split at hal
      · exact required_check_shape hal
      · exact absurd hal (by simp)

/-- Registry alerts carry `field = "extraction"` and a `PROTOCOL_`-prefixed
rule id. -/
lemma check_all_alert_facts {cfg : ProtocolConfig} {p : PatientProfile}
    {e : StructuredExtraction} {a : ComplianceAlert}
    (h : a ∈ ProtocolRegistry.check_all cfg p e) :
    a.field = some "extraction" ∧ ∃ s, a.rule_id = "PROTOCOL_" ++ s := by
  obtain ⟨rule, rfl⟩ := check_all_shape h
  exact ⟨create_alert_field rule, create_alert_rule_id_prefix rule⟩

namespace ComplianceEngine

/-- Membership in the date-integrity alerts. -/
lemma mem_verify_date_integrity {c : EMRContext} {o : AIGeneratedOutput}
    {a : ComplianceAlert} :
    a ∈ verify_date_integrity c o ↔
      ∃ d ∈ o.extracted_dates, d ∉ allowedDates c ∧ mkDateAlert d = a := by
  simp [verify_date_integrity, and_assoc]

/-- Membership in the clinical-protocol alerts. -/
lemma mem_verify_clinical {o : AIGeneratedOutput} {a : ComplianceAlert} :
    a ∈ verify_clinical_protocols o ↔ sepsisCond o = true ∧ a = mkSepsisAlert := by
  simp only [verify_clinical_protocols]
  split <;> simp_all

/-- Membership in the data-safety alerts. -/
lemma mem_verify_safety {o : AIGeneratedOutput} {a : ComplianceAlert} :
    a ∈ verify_data_safety o ↔ piiSearch o.summary_text = true ∧ a = mkPiiAlert := by
  simp only [verify_data_safety]
  split <;> simp_all

end ComplianceEngine

namespace ComplianceEngine

/-- If some critical alert was collected, `verify` is the failure of the
critical sublist. -/
lemma verify_failure_eq {p : PatientProfile} {c : EMRContext}
    {o : AIGeneratedOutput} {cfg : Option ProtocolConfig}
    (h : (collectAlerts p c o cfg).filter
      (fun a => a.severity = ComplianceSeverity.critical) ≠ []) :
    verify p c o cfg = Result.failure ((collectAlerts p c o cfg).filter
      (fun a => a.severity = ComplianceSeverity.critical)) := by
  unfold verify
  dsimp only
  split
  next hcrit => exact absurd (by simpa using hcrit) h
  next => rfl

/-- If no critical alert was collected, `verify` is the scored success. -/
lemma verify_success_eq {p : PatientProfile} {c : EMRContext}
    {o : AIGeneratedOutput} {cfg : Option ProtocolConfig}
    (h : (collectAlerts p c o cfg).filter
      (fun a => a.severity = ComplianceSeverity.critical) = []) :
    verify p c o cfg = Result.success
      { is_safe_to_file := true
        score :=
          if !((collectAlerts p c o cfg).filter
              (fun a => a.severity = ComplianceSeverity.high)).isEmpty then 0.7
          else if !(collectAlerts p c o cfg).isEmpty then 0.9
          else 1.0
        alerts := collectAlerts p c o cfg } := by
  unfold verify
  dsimp only
  split
  next => rfl
  next hcrit => exact absurd h (by simpa using hcrit)

/-- Membership in the collected alerts splits over the four phases. -/
lemma mem_collectAlerts {p : PatientProfile} {c : EMRContext}
    {o : AIGeneratedOutput} {cfg : Option ProtocolConfig} {a : ComplianceAlert} :
    a ∈ collectAlerts p c o cfg ↔
      a ∈ verify_date_integrity c o ∨ a ∈ verify_clinical_protocols o ∨
        a ∈ verify_data_safety o ∨
          ∃ config, cfg = some config ∧
            a ∈ ProtocolRegistry.check_all config p (convert_to_extraction o) := by
  unfold collectAlerts
  match cfg with
  | none => simp
  | some config => simp

end ComplianceEngine

open ComplianceEngine in
/-- C1: an extracted date outside the allowed EMR window makes `verify` fail
with a CRITICAL `INVARIANT_DATE_MISMATCH` alert (field `extracted_dates`)
per offending date in the failure payload; with all dates allowed, no
`INVARIANT_DATE_MISMATCH` alert is produced at all. -/
theorem C1_date_invariant :
    ∀ (p : PatientProfile) (c : EMRContext) (o : AIGeneratedOutput)
      (cfg : Option ProtocolConfig),
      (∀ d : Date, (mkDateAlert d).rule_id = "INVARIANT_DATE_MISMATCH" ∧
        (mkDateAlert d).severity = ComplianceSeverity.critical ∧
        (mkDateAlert d).field = some "extracted_dates") ∧
      ((∃ d ∈ o.extracted_dates, d ∉ allowedDates c) →
        (verify p c o cfg).is_success = false ∧
        ∃ errs, (verify p c o cfg).error = some errs ∧
          ∀ d ∈ o.extracted_dates, d ∉ allowedDates c → mkDateAlert d ∈ errs) ∧
      ((∀ d ∈ o.extracted_dates, d ∈ allowedDates c) →
        ∀ a ∈ collectAlerts p c o cfg, a.rule_id ≠ "INVARIANT_DATE_MISMATCH") := by
  intro p c o cfg
  refine ⟨fun d => ⟨rfl, rfl, rfl⟩, ?_, ?_⟩
  · rintro ⟨d0, hd0, hnd0⟩
    have hmem0 : mkDateAlert d0 ∈ collectAlerts p c o cfg := by
      rw [mem_collectAlerts]
      exact Or.inl (mem_verify_date_integrity.mpr ⟨d0, hd0, hnd0, rfl⟩)
    have hfil : mkDateAlert d0 ∈ (collectAlerts p c o cfg).filter
        (fun a => a.severity = ComplianceSeverity.critical) :=
      List.mem_filter.mpr ⟨hmem0, by simp [mkDateAlert]⟩
    have hne := List.ne_nil_of_mem hfil
    rw [verify_failure_eq hne]
    refine ⟨rfl, _, rfl, ?_⟩
    intro d hd hnd
    exact List.mem_filter.mpr
      ⟨mem_collectAlerts.mpr (Or.inl (mem_verify_date_integrity.mpr ⟨d, hd, hnd, rfl⟩)),
        by simp [mkDateAlert]⟩
  · intro hall a ha
    rw [mem_collectAlerts] at ha
    rcases ha with hd | hc | hs | ⟨config, _, hp⟩
    · obtain ⟨d, hdm, hnd, _⟩ := mem_verify_date_integrity.mp hd
      exact absurd (hall d hdm) hnd
    · obtain ⟨_, rfl⟩ := mem_verify_clinical.mp hc
      simp [mkSepsisAlert]
    · obtain ⟨_, rfl⟩ := mem_verify_safety.mp hs
      simp [mkPiiAlert]
    · obtain ⟨_, s, hs⟩ := check_all_alert_facts hp
      rw [hs]
      exact protocol_prefix_ne_invariant s

open ComplianceEngine in
/-- C2: `verify` fails exactly when some collected alert is CRITICAL; the
failure payload is exactly the critical sublist of the run's alerts and is
therefore non-empty. -/
theorem C2_failure_payload :
    ∀ (p : PatientProfile) (c : EMRContext) (o : AIGeneratedOutput)
      (cfg : Option ProtocolConfig),
      ((verify p c o cfg).is_success = false ↔
        ∃ a ∈ collectAlerts p c o cfg, a.severity = ComplianceSeverity.critical) ∧
      ((verify p c o cfg).is_success = false →
        (verify p c o cfg).error =
          some ((collectAlerts p c o cfg).filter
            (fun a => a.severity = ComplianceSeverity.critical)) ∧
        (verify p c o cfg).value = none ∧
        ∀ errs, (verify p c o cfg).error = some errs → errs ≠ []) ∧
      ((verify p c o cfg).is_success = true → (verify p c o cfg).error = none) := by
  intro p c o cfg
  by_cases hcrit : (collectAlerts p c o cfg).filter
      (fun a => a.severity = ComplianceSeverity.critical) = []
  · rw [verify_success_eq hcrit]
    refine ⟨⟨fun h => by simp [Result.success] at h, ?_⟩, fun h => by simp [Result.success] at h,
      fun _ => rfl⟩
    rintro ⟨a, ha, hsev⟩
    have hmem : a ∈ (collectAlerts p c o cfg).filter
        (fun a => a.severity = ComplianceSeverity.critical) :=
      List.mem_filter.mpr ⟨ha, by simp [hsev]⟩
    rw [hcrit] at hmem
    exact absurd hmem (List.not_mem_nil a)
  · rw [verify_failure_eq hcrit]
    obtain ⟨a, ha⟩ := List.exists_mem_of_ne_nil _ hcrit
    obtain ⟨hmem, hsev⟩ := List.mem_filter.mp ha
    refine ⟨⟨fun _ => ⟨a, hmem, by simpa using hsev⟩, fun _ => rfl⟩,
      fun _ => ⟨rfl, rfl, ?_⟩, fun h => by simp [Result.failure] at h⟩
    intro errs herrs
    injection herrs with herrs
    exact herrs ▸ hcrit

open ComplianceEngine in
/-- C3: on every success path the result is safe to file, carries all
collected alerts, and scores 0.7 with any HIGH alert, else 0.9 with any
alert, else 1.0 — never any other value. -/
theorem C3_success_scoring :
    ∀ (p : PatientProfile) (c : EMRContext) (o : AIGeneratedOutput)
      (cfg : Option ProtocolConfig),
      (verify p c o cfg).is_success = true →
      ∃ r, (verify p c o cfg).value = some r ∧
        r.is_safe_to_file = true ∧
        r.alerts = collectAlerts p c o cfg ∧
        ((∃ a ∈ r.alerts, a.severity = ComplianceSeverity.high) → r.score = 0.7) ∧
        ((¬ ∃ a ∈ r.alerts, a.severity = ComplianceSeverity.high) → r.alerts ≠ [] →
          r.score = 0.9) ∧
        (r.alerts = [] → r.score = 1.0) ∧
        (r.score = 1.0 ∨ r.score = 0.9 ∨ r.score = 0.7) := by
  intro p c o cfg h
  have hcrit : (collectAlerts p c o cfg).filter
      (fun a => a.severity = ComplianceSeverity.critical) = [] := by
    by_contra hne
    rw [verify_failure_eq hne] at h
    simp [Result.failure] at h
  rw [verify_success_eq hcrit]
  refine ⟨_, rfl, rfl, rfl, ?_, ?_, ?_, ?_⟩
  · rintro ⟨a, ha, hsev⟩
    have hne : (collectAlerts p c o cfg).filter
        (fun a => a.severity = ComplianceSeverity.high) ≠ [] :=
      List.ne_nil_of_mem (List.mem_filter.mpr ⟨ha, by simp [hsev]⟩)
    have hcond : (!((collectAlerts p c o cfg).filter
        (fun a => a.severity = ComplianceSeverity.high)).isEmpty) = true := by
      simpa [List.isEmpty_iff] using hne
    simp only [hcond, if_true]
  · intro hno hne
    have hfil : (collectAlerts p c o cfg).filter
        (fun a => a.severity = ComplianceSeverity.high) = [] := by
      rw [List.filter_eq_nil_iff]
      intro a ha
      simpa using fun hsev => hno ⟨a, ha, hsev⟩
    have hcond2 : (!(collectAlerts p c o cfg).isEmpty) = true := by
      simpa [List.isEmpty_iff] using hne
    simp only [hfil, List.isEmpty_nil, Bool.not_true, if_false, hcond2, if_true]
    simp
  · intro hempty
    dsimp only at hempty
    have h1 : (collectAlerts p c o cfg).filter
        (fun a => a.severity = ComplianceSeverity.high) = [] := by
      rw [hempty]; rfl
    dsimp only
    rw [h1, hempty]
    simp
  · dsimp only
    split
    · exact Or.inr (Or.inr rfl)
    · split
      · exact Or.inr (Or.inl rfl)
      · exact Or.inl rfl

open ComplianceEngine in
/-- C4: a Medicare-pattern match in the summary forces a CRITICAL
`SAFETY_PII_LEAK` alert (field `summary_text`) in the run and in the
failure payload of `verify`; with no match, no `SAFETY_PII_LEAK` alert is
emitted. -/
theorem C4_pii_invariant :
    ∀ (p : PatientProfile) (c : EMRContext) (o : AIGeneratedOutput)
      (cfg : Option ProtocolConfig),
      (mkPiiAlert.rule_id = "SAFETY_PII_LEAK" ∧
        mkPiiAlert.severity = ComplianceSeverity.critical ∧
        mkPiiAlert.field = some "summary_text") ∧
      (piiSearch o.summary_text = true →
        mkPiiAlert ∈ collectAlerts p c o cfg ∧
        (verify p c o cfg).is_success = false ∧
        ∃ errs, (verify p c o cfg).error = some errs ∧ mkPiiAlert ∈ errs) ∧
      (piiSearch o.summary_text = false →
        ∀ a ∈ collectAlerts p c o cfg, a.rule_id ≠ "SAFETY_PII_LEAK") := by
  intro p c o cfg
  refine ⟨⟨rfl, rfl, rfl⟩, ?_, ?_⟩
  · intro hpii
    have hmem : mkPiiAlert ∈ collectAlerts p c o cfg :=
      mem_collectAlerts.mpr (Or.inr (Or.inr (Or.inl (mem_verify_safety.mpr ⟨hpii, rfl⟩))))
    have hfil : mkPiiAlert ∈ (collectAlerts p c o cfg).filter
        (fun a => a.severity = ComplianceSeverity.critical) :=
      List.mem_filter.mpr ⟨hmem, by simp [mkPiiAlert]⟩
    have hne := List.ne_nil_of_mem hfil
    rw [verify_failure_eq hne]
    exact ⟨hmem, rfl, _, rfl, hfil⟩
  · intro hpii a ha
    rcases mem_collectAlerts.mp ha with hd | hc | hs | ⟨config, _, hp⟩
    · obtain ⟨d, _, _, hda⟩ := mem_verify_date_integrity.mp hd
      rw [← hda]
      simp [mkDateAlert]
    · obtain ⟨_, rfl⟩ := mem_verify_clinical.mp hc
      simp [mkSepsisAlert]
    · obtain ⟨hpii2, _⟩ := mem_verify_safety.mp hs
      rw [hpii] at hpii2
      exact absurd hpii2 (by simp)
    · obtain ⟨_, s, hsid⟩ := check_all_alert_facts hp
      rw [hsid]
      exact protocol_prefix_ne_pii s

namespace ComplianceEngine

/-- The sepsis condition, unfolded to its two substring tests. -/
lemma sepsisCond_iff {o : AIGeneratedOutput} :
    sepsisCond o = true ↔
      ((∃ d ∈ o.extracted_diagnoses, strContains (strLower d) "sepsis" = true) ∧
        strContains (strLower o.summary_text) "antibiotic" = false) := by
  simp [sepsisCond, List.any_map, List.any_eq_true, Function.comp,
    Bool.and_eq_true, Bool.not_eq_true']

end ComplianceEngine

open ComplianceEngine in
/-- C5: a HIGH alert with rule id `PROTOCOL_ADHERENCE_MISSING` on field
`summary_text` is emitted exactly when some extracted diagnosis contains
"sepsis" (case-insensitively) while the summary does not mention
"antibiotic"; on the spec's concrete sepsis scenario `verify` succeeds with
that alert and score exactly 0.7. -/
theorem C5_sepsis_protocol :
    (∀ (p : PatientProfile) (c : EMRContext) (o : AIGeneratedOutput)
      (cfg : Option ProtocolConfig),
      (∃ a ∈ collectAlerts p c o cfg,
        a.rule_id = "PROTOCOL_ADHERENCE_MISSING" ∧
        a.severity = ComplianceSeverity.high ∧
        a.field = some "summary_text") ↔
      ((∃ d ∈ o.extracted_diagnoses, strContains (strLower d) "sepsis" = true) ∧
        strContains (strLower o.summary_text) "antibiotic" = false)) ∧
    verify samplePatient sampleContext aiSepsisNoAbx none =
      Result.success
        { is_safe_to_file := true, score := 0.7, alerts := [mkSepsisAlert] } := by
  constructor
  · intro p c o cfg
    constructor
    · rintro ⟨a, ha, hid, hsev, hfield⟩
      rcases mem_collectAlerts.mp ha with hd | hc | hs | ⟨config, _, hp⟩
      · obtain ⟨d, _, _, hda⟩ := mem_verify_date_integrity.mp hd
        rw [← hda] at hid
        simp [mkDateAlert] at hid
      · obtain ⟨hcond, rfl⟩ := mem_verify_clinical.mp hc
        exact sepsisCond_iff.mp hcond
      · obtain ⟨_, rfl⟩ := mem_verify_safety.mp hs
        exact absurd hid (by decide)
      · obtain ⟨hfield2, _⟩ := check_all_alert_facts hp
        rw [hfield2] at hfield
        exact absurd hfield (by decide)
    · intro hrhs
      exact ⟨mkSepsisAlert,
        mem_collectAlerts.mpr
          (Or.inr (Or.inl (mem_verify_clinical.mpr ⟨sepsisCond_iff.mpr hrhs, rfl⟩))),
        rfl, rfl, rfl⟩
  · rfl

open ComplianceEngine in
/-- Witness for C1 at a concrete out-of-window date. -/
theorem C1_date_invariant_witness :
    (∃ d ∈ aiBadDate.extracted_dates, d ∉ allowedDates sampleContext) ∧
    (verify samplePatient sampleContext aiBadDate none).is_success = false ∧
    ∃ errs, (verify samplePatient sampleContext aiBadDate none).error = some errs ∧
      mkDateAlert ⟨2020, 5, 5⟩ ∈ errs := by
  have hx : ∃ d ∈ aiBadDate.extracted_dates, d ∉ allowedDates sampleContext :=
    ⟨⟨2020, 5, 5⟩, by decide, by decide⟩
  obtain ⟨h1, errs, h2, h3⟩ :=
    (C1_date_invariant samplePatient sampleContext aiBadDate none).2.1 hx
  exact ⟨hx, h1, errs, h2, h3 ⟨2020, 5, 5⟩ (by decide) (by decide)⟩

open ComplianceEngine in
/-- Witness for C2 on the Medicare-leak input. -/
theorem C2_failure_payload_witness :
    (verify samplePatient sampleContext aiMedicare none).is_success = false ∧
    (verify samplePatient sampleContext aiMedicare none).error =
      some ((collectAlerts samplePatient sampleContext aiMedicare none).filter
        (fun a => a.severity = ComplianceSeverity.critical)) ∧
    ∀ errs, (verify samplePatient sampleContext aiMedicare none).error = some errs →
      errs ≠ [] := by
  have h := C2_failure_payload samplePatient sampleContext aiMedicare none
  have hfalse : (verify samplePatient sampleContext aiMedicare none).is_success = false :=
    h.1.mpr ⟨mkPiiAlert, by decide, by decide⟩
  obtain ⟨he, _, hne⟩ := h.2.1 hfalse
  exact ⟨hfalse, he, hne⟩

open ComplianceEngine in
/-- Witness for C3 on the sepsis success path (score 0.7). -/
theorem C3_success_scoring_witness :
    (verify samplePatient sampleContext aiSepsisNoAbx none).is_success = true ∧
    ∃ r, (verify samplePatient sampleContext aiSepsisNoAbx none).value = some r ∧
      r.is_safe_to_file = true ∧ r.score = 0.7 := by
  have htrue : (verify samplePatient sampleContext aiSepsisNoAbx none).is_success = true := by
    decide
  obtain ⟨r, hv, hsafe, halerts, h07, _, _, _⟩ :=
    C3_success_scoring samplePatient sampleContext aiSepsisNoAbx none htrue
  refine ⟨htrue, r, hv, hsafe, h07 ⟨mkSepsisAlert, ?_, rfl⟩⟩
  rw [halerts]
  decide

open ComplianceEngine in
/-- Witness for C4 on the Medicare-leak input. -/
theorem C4_pii_invariant_witness :
    piiSearch aiMedicare.summary_text = true ∧
    mkPiiAlert ∈ collectAlerts samplePatient sampleContext aiMedicare none ∧
    (verify samplePatient sampleContext aiMedicare none).is_success = false := by
  have hp : piiSearch aiMedicare.summary_text = true := by decide
  obtain ⟨hmem, hfail, _⟩ :=
    (C4_pii_invariant samplePatient sampleContext aiMedicare none).2.1 hp
  exact ⟨hp, hmem, hfail⟩

open ComplianceEngine in
/-- Witness for C5: the sepsis alert is emitted on the concrete scenario. -/
theorem C5_sepsis_protocol_witness :
    ∃ a ∈ collectAlerts samplePatient sampleContext aiSepsisNoAbx none,
      a.rule_id = "PROTOCOL_ADHERENCE_MISSING" ∧
      a.severity = ComplianceSeverity.high ∧
      a.field = some "summary_text" :=
  (C5_sepsis_protocol.1 samplePatient sampleContext aiSepsisNoAbx none).mpr
    ⟨⟨"Severe Sepsis", by decide, by decide⟩, by decide⟩

/-- Intersecting with an empty collection is always false. -/
lemma lowerIntersects_nil_right (xs : List String) : lowerIntersects xs [] = false := by
  simp [lowerIntersects]

/-- Registry aggregation unfolded per checker: each enabled checker's alerts
appear exactly once, in `checker_map` order. -/
lemma check_all_decomp (cfg : ProtocolConfig) (p : PatientProfile)
    (e : StructuredExtraction) :
    ProtocolRegistry.check_all cfg p e =
      (if ProtocolRegistry.checkerEnabled cfg "drug_interactions" then
        DrugInteractionChecker.check (some cfg) p e else []) ++
      (if ProtocolRegistry.checkerEnabled cfg "allergy_checks" then
        AllergyChecker.check (some cfg) p e else []) ++
      (if ProtocolRegistry.checkerEnabled cfg "required_fields" then
        RequiredFieldsChecker.check (some cfg) p e else []) := by
  unfold ProtocolRegistry.check_all ProtocolRegistry.get_enabled_checkers
    ProtocolRegistry.checkerNames
  cases h1 : ProtocolRegistry.checkerEnabled cfg "drug_interactions" <;>
    cases h2 : ProtocolRegistry.checkerEnabled cfg "allergy_checks" <;>
      cases h3 : ProtocolRegistry.checkerEnabled cfg "required_fields" <;>
        simp [h1, h2, h3, ProtocolRegistry.runChecker, List.filter]

/-- A drug-interaction check over an extraction with no medications emits
nothing. -/
lemma drug_check_no_meds {cfgO : Option ProtocolConfig} {p : PatientProfile}
    {e : StructuredExtraction} (h : e.medications = []) :
    DrugInteractionChecker.check cfgO p e = [] := by
  match cfgO with
  | none => rfl
  | some cfg =>
    simp only [DrugInteractionChecker.check]
    split
    · rfl
    · rw [List.filterMap_eq_nil_iff]
      intro rule _
      simp [h, lowerIntersects_nil_right]

/-- An allergy check over an extraction with no medications emits nothing. -/
lemma allergy_check_no_meds {cfgO : Option ProtocolConfig} {p : PatientProfile}
    {e : StructuredExtraction} (h : e.medications = []) :
    AllergyChecker.check cfgO p e = [] := by
  match cfgO with
  | none => rfl
  | some cfg =>
    simp only [AllergyChecker.check]
    split
    · rfl
    · rw [List.filterMap_eq_nil_iff]
      intro rule _
      simp [MedicationPatternMatcher.matches, h, lowerIntersects_nil_right]

open ComplianceEngine in
/-- C6: the allergy checker fires exactly once per configured rule whose
allergy pattern matches the patient and whose conflict medications match
the extraction (case-insensitively, in both directions), mapping protocol
severities CRITICAL→CRITICAL, HIGH→HIGH, WARNING→MEDIUM, INFO→LOW; on the
spec's end-to-end scenario it yields exactly one CRITICAL alert, and zero
alerts when the allergy or the medication is removed. -/
theorem C6_allergy_checker :
    (∀ (cfg : ProtocolConfig) (p : PatientProfile) (e : StructuredExtraction)
        (rules : List ProtocolRule),
      rulesFor cfg "allergy_checks" = some rules →
      AllergyChecker.check (some cfg) p e =
        (rules.filter fun rule =>
          AllergyPatternMatcher.matches p (rule.pattern.patient_allergies.getD []) &&
            MedicationPatternMatcher.matches e
              (MedGroup.getMeds rule.pattern.conflicts)).map
          ProtocolChecker.create_alert) ∧
    (mapSeverity .CRITICAL = .critical ∧ mapSeverity .HIGH = .high ∧
      mapSeverity .WARNING = .medium ∧ mapSeverity .INFO = .low) ∧
    (∀ rule : ProtocolRule,
      (ProtocolChecker.create_alert rule).severity = mapSeverity rule.severity) ∧
    ProtocolRegistry.check_all sampleProtocolConfig allergicPatient amoxExtraction =
      [ProtocolChecker.create_alert penicillinRule] ∧
    (ProtocolChecker.create_alert penicillinRule).severity =
      ComplianceSeverity.critical ∧
    ProtocolRegistry.check_all sampleProtocolConfig samplePatient amoxExtraction = [] ∧
    ProtocolRegistry.check_all sampleProtocolConfig allergicPatient {} = [] ∧
    ProtocolRegistry.check_all sampleProtocolConfig allergicPatientUpper amoxExtraction =
      [ProtocolChecker.create_alert penicillinRule] ∧
    AllergyChecker.check
        (some { version := "1.0"
                checkers := [("allergy_checks", { enabled := some true })]
                rules := [("allergy_checks", [penicillinRuleUpper])] })
        allergicPatient amoxExtraction =
      [ProtocolChecker.create_alert penicillinRuleUpper] := by
  refine ⟨?_, ⟨rfl, rfl, rfl, rfl⟩, fun rule => rfl, by decide, rfl, by decide,
    by decide, by decide, by decide⟩
  intro cfg p e rules hrules
  simp only [AllergyChecker.check, hrules]
  exact filterMap_guard_eq _ _ rules

open ComplianceEngine in
/-- Witness for C6 on the loaded sample rule group. -/
theorem C6_allergy_checker_witness :
    rulesFor sampleProtocolConfig "allergy_checks" = some [penicillinRule] ∧
    AllergyChecker.check (some sampleProtocolConfig) allergicPatient amoxExtraction =
      ([penicillinRule].filter fun rule =>
        AllergyPatternMatcher.matches allergicPatient
            (rule.pattern.patient_allergies.getD []) &&
          MedicationPatternMatcher.matches amoxExtraction
            (MedGroup.getMeds rule.pattern.conflicts)).map
        ProtocolChecker.create_alert :=
  ⟨rfl, C6_allergy_checker.1 sampleProtocolConfig allergicPatient amoxExtraction
    [penicillinRule] rfl⟩

/-- C7: the registry instantiates exactly the `checker_map` checkers marked
enabled in `config.checkers` (absent or not-enabled entries are never
instantiated, even with rules present), `get_enabled_checkers` returns that
set, and `check_all` concatenates the enabled checkers' alert lists. -/
theorem C7_registry :
    (∀ (cfg : ProtocolConfig) (n : String),
      n ∈ ProtocolRegistry.get_enabled_checkers cfg ↔
        n ∈ ProtocolRegistry.checkerNames ∧
          ProtocolRegistry.checkerEnabled cfg n = true) ∧
    (∀ (cfg : ProtocolConfig) (n : String),
      List.lookup n cfg.checkers = none →
        n ∉ ProtocolRegistry.get_enabled_checkers cfg) ∧
    (∀ (cfg : ProtocolConfig) (p : PatientProfile) (e : StructuredExtraction),
      ProtocolRegistry.check_all cfg p e =
        (if ProtocolRegistry.checkerEnabled cfg "drug_interactions" then
          DrugInteractionChecker.check (some cfg) p e else []) ++
        (if ProtocolRegistry.checkerEnabled cfg "allergy_checks" then
          AllergyChecker.check (some cfg) p e else []) ++
        (if ProtocolRegistry.checkerEnabled cfg "required_fields" then
          RequiredFieldsChecker.check (some cfg) p e else [])) ∧
    ProtocolRegistry.get_enabled_checkers cfgRulesWithoutChecker = [] ∧
    ProtocolRegistry.get_enabled_checkers sampleProtocolConfig = ["allergy_checks"] := by
  refine ⟨?_, ?_, check_all_decomp, rfl, rfl⟩
  · intro cfg n
    simp [ProtocolRegistry.get_enabled_checkers, List.mem_filter]
  · intro cfg n h hmem
    rw [ProtocolRegistry.get_enabled_checkers, List.mem_filter] at hmem
    have : ProtocolRegistry.checkerEnabled cfg n = false := by
      unfold ProtocolRegistry.checkerEnabled
      rw [h]
      rfl
    rw [this] at hmem
    exact absurd hmem.2 (by simp)

/-- Witness for C7: a rules-only config never enables its checker. -/
theorem C7_registry_witness :
    List.lookup "drug_interactions" cfgRulesWithoutChecker.checkers = none ∧
    "drug_interactions" ∉ ProtocolRegistry.get_enabled_checkers cfgRulesWithoutChecker :=
  ⟨rfl, C7_registry.2.1 cfgRulesWithoutChecker "drug_interactions" rfl⟩

open ComplianceEngine in
/-- C8: checkers and matchers are total and fail open — a missing config or
missing rule group yields no alerts, missing pattern keys yield "no match",
and `verify` always returns a well-formed `Result` (in particular for
empty dates, diagnoses, and summary). -/
theorem C8_fail_open :
    (∀ (p : PatientProfile) (e : StructuredExtraction),
      AllergyChecker.check none p e = [] ∧
      DrugInteractionChecker.check none p e = [] ∧
      RequiredFieldsChecker.check none p e = []) ∧
    (∀ (cfg : ProtocolConfig) (p : PatientProfile) (e : StructuredExtraction),
      rulesFor cfg "allergy_checks" = none → AllergyChecker.check (some cfg) p e = []) ∧
    (∀ (cfg : ProtocolConfig) (p : PatientProfile) (e : StructuredExtraction),
      rulesFor cfg "drug_interactions" = none →
        DrugInteractionChecker.check (some cfg) p e = []) ∧
    (∀ (cfg : ProtocolConfig) (p : PatientProfile) (e : StructuredExtraction),
      rulesFor cfg "required_fields" = none →
        RequiredFieldsChecker.check (some cfg) p e = []) ∧
    (∀ e : StructuredExtraction, MedicationPatternMatcher.matches e [] = false) ∧
    (∀ p : PatientProfile, AllergyPatternMatcher.matches p [] = false) ∧
    (∀ e : StructuredExtraction, FieldPresenceMatcher.matches e [] = true) ∧
    MedGroup.getMeds none = [] ∧
    (∀ (p : PatientProfile) (c : EMRContext) (o : AIGeneratedOutput)
      (cfg : Option ProtocolConfig), (verify p c o cfg).wellFormed) := by
  refine ⟨fun p e => ⟨rfl, rfl, rfl⟩, ?_, ?_, ?_, ?_, ?_, fun e => rfl, rfl, ?_⟩
  · intro cfg p e h
    simp only [AllergyChecker.check, h]
  · intro cfg p e h
    simp only [DrugInteractionChecker.check, h]
  · intro cfg p e h
    simp only [RequiredFieldsChecker.check, h]
  · intro e
    simp [MedicationPatternMatcher.matches, lowerIntersects]
  · intro p
    simp [AllergyPatternMatcher.matches, lowerIntersects]
  · intro p c o cfg
    by_cases hcrit : (collectAlerts p c o cfg).filter
        (fun a => a.severity = ComplianceSeverity.critical) = []
    · rw [verify_success_eq hcrit]
      exact Or.inl ⟨rfl, rfl, rfl⟩
    · rw [verify_failure_eq hcrit]
      exact Or.inr ⟨rfl, rfl, _, rfl, hcrit⟩

open ComplianceEngine in
/-- Witness for C8: a config without the drug rule group, and the empty AI
output, both produce benign results. -/
theorem C8_fail_open_witness :
    rulesFor sampleProtocolConfig "drug_interactions" = none ∧
    DrugInteractionChecker.check (some sampleProtocolConfig) samplePatient {} = [] ∧
    (verify samplePatient sampleContext { summary_text := "" } none).wellFormed :=
  ⟨rfl,
    C8_fail_open.2.2.1 sampleProtocolConfig samplePatient {} rfl,
    C8_fail_open.2.2.2.2.2.2.2.2 samplePatient sampleContext
      { summary_text := "" } none⟩

open ComplianceEngine in
/-- C9: the conversion to `StructuredExtraction` carries over exactly the
medications attribute when present (empty otherwise) with all other fields
empty, and supplying a protocol config appends exactly the registry's
alerts for the converted extraction; without a config only the three fixed
checks contribute. -/
theorem C9_conversion_registry :
    (∀ o : DynAIGeneratedOutput,
      (convert_to_extraction_dyn o).medications = o.extracted_medications.getD [] ∧
      (convert_to_extraction_dyn o).diagnoses = [] ∧
      (convert_to_extraction_dyn o).temporal_expressions = [] ∧
      (convert_to_extraction_dyn o).vital_signs = []) ∧
    (∀ (m : List ExtractedMedication) (o : DynAIGeneratedOutput),
      o.extracted_medications = some m → (convert_to_extraction_dyn o).medications = m) ∧
    (∀ (p : PatientProfile) (c : EMRContext) (o : AIGeneratedOutput)
        (cfg : ProtocolConfig),
      collectAlerts p c o (some cfg) =
        collectAlerts p c o none ++
          ProtocolRegistry.check_all cfg p (convert_to_extraction o)) ∧
    (∀ (p : PatientProfile) (c : EMRContext) (o : AIGeneratedOutput),
      collectAlerts p c o none =
        verify_date_integrity c o ++
          verify_clinical_protocols o ++ verify_data_safety o) := by
  refine ⟨?_, ?_, ?_, ?_⟩
  · intro o
    cases h : o.extracted_medications <;>
      simp [convert_to_extraction_dyn, h]
  · intro m o h
    simp [convert_to_extraction_dyn, h]
  · intro p c o cfg
    simp [collectAlerts]
  · intro p c o
    simp [collectAlerts]

open ComplianceEngine in
/-- Witness for C9: the present attribute is carried over verbatim. -/
theorem C9_conversion_registry_witness :
    dynWithMeds.extracted_medications = some [{ name := "amoxicillin" }] ∧
    (convert_to_extraction_dyn dynWithMeds).medications = [{ name := "amoxicillin" }] :=
  ⟨rfl, C9_conversion_registry.2.1 [{ name := "amoxicillin" }] dynWithMeds rfl⟩

open ComplianceEngine in
/-- C10: the declared `AIGeneratedOutput` type has no
`extracted_medications` attribute, so the conversion always yields an
empty medication list and, with `PatientProfile` declaring no
`active_medications`, the drug and allergy checkers can never fire inside
`verify`; only the required-fields checker can contribute protocol alerts. -/
theorem C10_only_required_fields :
    (∀ o : AIGeneratedOutput, (convert_to_extraction o).medications = []) ∧
    (∀ (cfg : ProtocolConfig) (p : PatientProfile) (o : AIGeneratedOutput),
      DrugInteractionChecker.check (some cfg) p (convert_to_extraction o) = []) ∧
    (∀ (cfg : ProtocolConfig) (p : PatientProfile) (o : AIGeneratedOutput),
      AllergyChecker.check (some cfg) p (convert_to_extraction o) = []) ∧
    (∀ (cfg : ProtocolConfig) (p : PatientProfile) (o : AIGeneratedOutput),
      ProtocolRegistry.check_all cfg p (convert_to_extraction o) =
        (if ProtocolRegistry.checkerEnabled cfg "required_fields" then
          RequiredFieldsChecker.check (some cfg) p (convert_to_extraction o)
        else [])) := by
  refine ⟨fun o => rfl, fun cfg p o => drug_check_no_meds rfl,
    fun cfg p o => allergy_check_no_meds rfl, ?_⟩
  intro cfg p o
  rw [check_all_decomp, drug_check_no_meds rfl, allergy_check_no_meds rfl]
  simp
